import Mathlib

/-!
Verification of the node lifecycle manager of `os_sandbox/node.py`: a shallow
embedding of the `Node` class (record loading, descriptor generation, the
libvirt status reconciliation, and the create/start/stop operations), with the
hypervisor driver modelled as an explicit outcome environment and every driver
interaction recorded in a call trace. Python exceptions are modelled with
`Except`: a function that may raise returns `Except Exn` and the `try/except`
blocks of the source become matches on that result.
-/

namespace OsSandbox

/-- The four sandbox status values (`Node.STATUS_*` string constants). -/
inductive Status
| UNDEFINED
| UP
| ERROR
| DOWN
deriving DecidableEq, Repr

/-- libvirt domain-state code `VIR_DOMAIN_NOSTATE`. -/
def VIR_DOMAIN_NOSTATE : Nat := 0

/-- libvirt domain-state code `VIR_DOMAIN_RUNNING`. -/
def VIR_DOMAIN_RUNNING : Nat := 1

/-- libvirt domain-state code `VIR_DOMAIN_BLOCKED`. -/
def VIR_DOMAIN_BLOCKED : Nat := 2

/-- libvirt domain-state code `VIR_DOMAIN_PAUSED`. -/
def VIR_DOMAIN_PAUSED : Nat := 3

/-- libvirt domain-state code `VIR_DOMAIN_SHUTDOWN`. -/
def VIR_DOMAIN_SHUTDOWN : Nat := 4

/-- libvirt domain-state code `VIR_DOMAIN_SHUTOFF`. -/
def VIR_DOMAIN_SHUTOFF : Nat := 5

/-- libvirt domain-state code `VIR_DOMAIN_CRASHED`. -/
def VIR_DOMAIN_CRASHED : Nat := 6

/-- libvirt domain-state code `VIR_DOMAIN_PMSUSPENDED`. -/
def VIR_DOMAIN_PMSUSPENDED : Nat := 7

/-- libvirt error code `VIR_ERR_NO_DOMAIN`. -/
def VIR_ERR_NO_DOMAIN : Nat := 42

/-- Exceptions that the embedded methods raise or catch: `RuntimeError` with
its message, `libvirt.libvirtError` carrying its error code, and any other
exception class (`KeyError`, `AttributeError`, ...). -/
inductive Exn
| runtimeError (msg : String)
| libvirtError (code : Nat)
| otherError
deriving DecidableEq, Repr

/-- Outcome of one underlying libvirt API call: a value, a raised
`libvirt.libvirtError` with its error code, or some other exception. -/
inductive LvResult (α : Type)
| ok (a : α)
| err (code : Nat)
| exn
deriving DecidableEq, Repr

/-- One driver interaction, as recorded in a call trace. An operation whose
trace is `[]` made no driver contact at all. -/
inductive Call
| openConn (readonly : Bool)
| lookupByName (name : String)
| domInfo (name : String)
| createXML (xml : String)
| destroy (name : String)
deriving DecidableEq, Repr

/-- The hypervisor driver environment for one node: what each libvirt call
would return during the operation under consideration. `openRO`/`openRW`
say whether `libvirt.openReadOnly`/`libvirt.open` return a connection
(`false` models the `None` return that `_get_conn` turns into a
`RuntimeError`); `lookup` is `conn.lookupByName(name)`; `infoState` is
`dom.info()[0]`; `createOk` says whether `conn.createXML` returns a domain;
`destroyRes` is `dom.destroy()`. -/
structure DriverEnv where
  openRO : Bool
  openRW : Bool
  lookup : LvResult Unit
  infoState : LvResult Nat
  createOk : Bool
  destroyRes : LvResult Unit
deriving DecidableEq, Repr

/-- `Node._get_conn`: open a libvirt connection; a `None` connection raises
`RuntimeError("Failed to connect to QEMU.")`. -/
def _get_conn (env : DriverEnv) (readonly : Bool) : Except Exn Unit × List Call :=
  let connOk := if readonly then env.openRO else env.openRW
  if connOk then (Except.ok (), [Call.openConn readonly])
  else (Except.error (Exn.runtimeError "Failed to connect to QEMU."), [Call.openConn readonly])

/-- `Node._get_domain`: open a connection and look the domain up by name;
either step may raise, and the exception propagates to the caller. -/
def _get_domain (env : DriverEnv) (name : String) (readonly : Bool) :
    Except Exn Unit × List Call :=
  match _get_conn env readonly with
  | (Except.ok _, tr) =>
    match env.lookup with
    | LvResult.ok _ => (Except.ok (), tr ++ [Call.lookupByName name])
    | LvResult.err c => (Except.error (Exn.libvirtError c), tr ++ [Call.lookupByName name])
    | LvResult.exn => (Except.error Exn.otherError, tr ++ [Call.lookupByName name])
  | (Except.error e, tr) => (Except.error e, tr)

/-- The compound query `self._get_domain()` followed by `dom.info()[0]`, the
body of the `try` blocks of both `started` and `status`. -/
def _dom_state (env : DriverEnv) (name : String) : Except Exn Nat × List Call :=
  match _get_domain env name true with
  | (Except.ok _, tr) =>
    match env.infoState with
    | LvResult.ok st => (Except.ok st, tr ++ [Call.domInfo name])
    | LvResult.err c => (Except.error (Exn.libvirtError c), tr ++ [Call.domInfo name])
    | LvResult.exn => (Except.error Exn.otherError, tr ++ [Call.domInfo name])
  | (Except.error e, tr) => (Except.error e, tr)

/-- `Node.started`: `dom.info()[0] == libvirt.VIR_DOMAIN_RUNNING`, with a bare
`except:` collapsing every failure to `False`. -/
def started (env : DriverEnv) (name : String) : Bool × List Call :=
  match _dom_state env name with
  | (Except.ok st, tr) => (st == VIR_DOMAIN_RUNNING, tr)
  | (Except.error _, tr) => (false, tr)

/-- The fields `Node._fill` reads out of `config.yaml` (plus the image path the
`Image` collaborator resolves from the `image` reference). -/
structure NodeRecord where
  uuid : String
  vcpu : Nat
  ram_mb : Nat
  image_path : String
deriving DecidableEq, Repr

/-- An in-memory `Node` handle after `__init__`: the name, the sticky load
error (`self.error`) and, when `_fill` succeeded, the loaded record. -/
structure Node where
  name : String
  error : Option String
  record : Option NodeRecord
deriving DecidableEq, Repr

/-- Outcome of `Node._fill` (YAML parse, required keys, image resolution):
either a record or the exception message. -/
inductive LoadResult
| ok (r : NodeRecord)
| failed (msg : String)
deriving DecidableEq, Repr

/-- `Node.__init__`: `self.error = None`; when the config file exists, attempt
`_fill` once and capture any exception in `self.error`. The load is attempted
only here, never again on later queries. -/
def Node.init (name : String) (confExists : Bool) (load : LoadResult) : Node :=
  if confExists then
    match load with
    | LoadResult.ok r => { name := name, error := none, record := some r }
    | LoadResult.failed msg => { name := name, error := some msg, record := none }
  else { name := name, error := none, record := none }

/-- The `state_code_map` dict of `Node.status`; `none` is a key miss, whose
`KeyError` the generic `except Exception` handler turns into `ERROR`. -/
def state_code_map (code : Nat) : Option Status :=
  if code = VIR_DOMAIN_NOSTATE then some Status.UNDEFINED
  else if code = VIR_DOMAIN_RUNNING then some Status.UP
  else if code = VIR_DOMAIN_BLOCKED then some Status.UP
  else if code = VIR_DOMAIN_PAUSED then some Status.UP
  else if code = VIR_DOMAIN_SHUTDOWN then some Status.DOWN
  else if code = VIR_DOMAIN_SHUTOFF then some Status.DOWN
  else if code = VIR_DOMAIN_CRASHED then some Status.ERROR
  else if code = VIR_DOMAIN_PMSUSPENDED then some Status.DOWN
  else none

/-- The `Node.status` property. `confExists` is the live `self.exists()`
filesystem check at query time. The function is total: every exception of the
query is caught (`libvirt.libvirtError` first, then `Exception`), so a status
value is always returned. -/
def Node.status (h : Node) (confExists : Bool) (env : DriverEnv) : Status × List Call :=
  if h.error.isSome then (Status.ERROR, [])
  else if !confExists then (Status.UNDEFINED, [])
  else
    match _dom_state env h.name with
    | (Except.ok code, tr) =>
      match state_code_map code with
      | some s => (s, tr)
      | none => (Status.ERROR, tr)
    | (Except.error (Exn.libvirtError c), tr) =>
      if c = VIR_ERR_NO_DOMAIN then (Status.DOWN, tr) else (Status.ERROR, tr)
    | (Except.error _, tr) => (Status.ERROR, tr)

/-- One element of `net_xml_texts` in `Node._get_xml`: the per-network
interface clause, referencing the network by slug with the fixed e1000 model. -/
def net_interface_xml (slug : String) : String :=
  "\n<interface type='network'>\n    <source network='" ++ slug
    ++ "'/>\n    <model type='e1000'/>\n</interface>\n"

/-- `"\n".join(net_xml_texts)` of `Node._get_xml`. -/
def net_xml_text (networks : List String) : String :=
  String.intercalate "\n" (networks.map net_interface_xml)

/-- The `conf` dict built by `Node._get_xml` before formatting the template. -/
structure XmlConf where
  name : String
  uuid : String
  image_path : String
  vcpus : Nat
  memory_bytes : Nat
  net_xml : String
deriving DecidableEq, Repr

/-- The `conf` dict of `Node._get_xml`: note `memory_bytes` is
`self.resources['ram_mb'] * 1024` and `net_xml` is the joined per-network
interface text. -/
def xml_conf (name : String) (r : NodeRecord) (networks : List String) : XmlConf :=
  { name := name
  , uuid := r.uuid
  , image_path := r.image_path
  , vcpus := r.vcpu
  , memory_bytes := r.ram_mb * 1024
  , net_xml := net_xml_text networks }

/-- The template string of `Node._get_xml` lines 136-161, with the fields the
source's `.format(**conf)` actually interpolates: `uuid`, `name`, `vcpus`,
`memory_bytes` and `image_path`. The template contains no placeholder for
`net_xml`, so that field of the conf is never rendered; the only interface
clause is the hard-coded one referencing the network named `default`. -/
def render_xml (c : XmlConf) : String :=
  "\n<domain type='kvm'>\n    <uuid>" ++ c.uuid ++ "</uuid>\n    <name>"
    ++ c.name ++ "</name>\n    <vcpu>" ++ toString c.vcpus
    ++ "</vcpu>\n    <memory>" ++ toString c.memory_bytes
    ++ "</memory>\n    <os>\n        <type arch=\"i686\">hvm</type>\n    </os>\n    <devices>\n        <disk type='file' device='disk'>\n            <source file='"
    ++ c.image_path
    ++ "'/>\n            <target dev='hda'/>\n        </disk>\n        <interface type='network'>\n            <source network='default'/>\n        </interface>\n        <serial type='pty'>\n            <target port='0'/>\n        </serial>\n        <console type='pty'>\n            <target type='serial' port='0'/>\n        </console>\n    </devices>\n</domain>\n"

/-- `Node._get_xml`: build the conf dict and format the template with it. -/
def _get_xml (name : String) (r : NodeRecord) (networks : List String) : String :=
  render_xml (xml_conf name r networks)

/-- The per-node filesystem state `create` acts on: whether the node directory
(`self.node_dir`) exists, whether the config file (`self.conf_path`) exists,
and the persisted record when one was written. `Node.exists()` is the
`confExists` field. -/
structure FsState where
  dirExists : Bool
  confExists : Bool
  record : Option NodeRecord
deriving DecidableEq, Repr

/-- Exceptions raised by `Node.create`: the `RuntimeError` naming the already
defined node, or the `OSError` that `os.mkdir` raises when `self.node_dir`
already exists. -/
inductive CreateErr
| runtimeError (msg : String)
| osError
deriving DecidableEq, Repr

/-- `true` exactly on the already-defined `RuntimeError` of `Node.create`. -/
def isAlreadyDefinedErr : Except CreateErr Unit → Bool
| Except.error (CreateErr.runtimeError _) => true
| _ => false

/-- `Node.create`: raise the already-defined `RuntimeError` when
`self.exists()`; otherwise `os.mkdir(self.node_dir)` — which raises `OSError`
if the directory already exists, uncaught by `create` — then write the new
record (with its fresh `uuid4` hex, here a parameter) to `config.yaml`. -/
def Node.create (h : Node) (st : FsState) (newRec : NodeRecord) :
    Except CreateErr Unit × FsState :=
  if st.confExists then
    (Except.error (CreateErr.runtimeError
        ("The node with name " ++ h.name ++ " is already defined.")), st)
  else if st.dirExists then
    (Except.error CreateErr.osError, st)
  else
    (Except.ok (), { dirExists := true, confExists := true, record := some newRec })

/-- `Node.start`: raise the does-not-exist `RuntimeError` when the record file
is absent; return immediately when `started()`; otherwise open a read-write
connection and `conn.createXML(self._get_xml(), 0)`. When the record failed to
load, building the XML raises an `AttributeError` (the loaded fields are
missing), modelled as `Exn.otherError`. -/
def Node.start (h : Node) (confExists : Bool) (env : DriverEnv) (networks : List String) :
    Except Exn Unit × List Call :=
  if !confExists then
    (Except.error (Exn.runtimeError
        ("A node with name " ++ h.name ++ " does not exist.")), [])
  else
    match started env h.name with
    | (true, tr) => (Except.ok (), tr)
    | (false, tr) =>
      match _get_conn env false with
      | (Except.error e, tr2) => (Except.error e, tr ++ tr2)
      | (Except.ok _, tr2) =>
        match h.record with
        | none => (Except.error Exn.otherError, tr ++ tr2)
        | some r =>
          let xml := _get_xml h.name r networks
          if env.createOk then (Except.ok (), tr ++ tr2 ++ [Call.createXML xml])
          else (Except.error (Exn.runtimeError ("Failed to start guest " ++ h.name)),
                tr ++ tr2 ++ [Call.createXML xml])

/-- `Node.stop`: raise the does-not-exist `RuntimeError` when the record file
is absent; return immediately when not `started()`; otherwise look the domain
up over a read-write connection (a failure there propagates — the
`if dom == None` branch of the source is unreachable since `lookupByName`
raises rather than returning `None`) and `dom.destroy()`. -/
def Node.stop (h : Node) (confExists : Bool) (env : DriverEnv) :
    Except Exn Unit × List Call :=
  if !confExists then
    (Except.error (Exn.runtimeError
        ("A node with name " ++ h.name ++ " does not exist.")), [])
  else
    match started env h.name with
    | (false, tr) => (Except.ok (), tr)
    | (true, tr) =>
      match _get_domain env h.name false with
      | (Except.error e, tr2) => (Except.error e, tr ++ tr2)
      | (Except.ok _, tr2) =>
        match env.destroyRes with
        | LvResult.ok _ => (Except.ok (), tr ++ tr2 ++ [Call.destroy h.name])
        | LvResult.err c => (Except.error (Exn.libvirtError c), tr ++ tr2 ++ [Call.destroy h.name])
        | LvResult.exn => (Except.error Exn.otherError, tr ++ tr2 ++ [Call.destroy h.name])

/-- Does the character list `p` stand at the front of `s`? -/
def charsAtFront : List Char → List Char → Bool
| [], _ => true
| _ :: _, [] => false
| p :: ps, c :: cs => p == c && charsAtFront ps cs

/-- Number of positions of `s` at which the pattern `p` occurs. -/
def countOccs (p : List Char) : List Char → Nat
| [] => 0
| c :: cs => (if charsAtFront p (c :: cs) then 1 else 0) + countOccs p cs

/-- Number of `createXML` (domain-creation) calls in a trace. -/
def countCreate : List Call → Nat
| [] => 0
| Call.createXML _ :: tr => 1 + countCreate tr
| _ :: tr => countCreate tr

/-- A concrete loaded record used by the counterexamples and witnesses. -/
def sampleRecord : NodeRecord :=
  { uuid := "u-1234", vcpu := 2, ram_mb := 512, image_path := "/img/base.img" }

/-- A handle for node `alpha` whose record loaded successfully. -/
def alphaNode : Node :=
  { name := "alpha", error := none, record := some sampleRecord }

/-- A handle whose load failed at construction (sticky error set). -/
def brokenNode : Node :=
  { name := "alpha", error := some "yaml parse failed", record := none }

/-- A driver environment whose domain exists and reports `VIR_DOMAIN_RUNNING`. -/
def runningEnv : DriverEnv :=
  { openRO := true, openRW := true, lookup := LvResult.ok ()
  , infoState := LvResult.ok VIR_DOMAIN_RUNNING, createOk := true
  , destroyRes := LvResult.ok () }

/-- The descriptor the code generates for node `alpha` with the single
network `netA`. -/
def sampleXml : String := _get_xml "alpha" sampleRecord ["netA"]

/-- A driver environment whose domain reports `VIR_DOMAIN_BLOCKED`. -/
def blockedEnv : DriverEnv :=
  { runningEnv with infoState := LvResult.ok VIR_DOMAIN_BLOCKED }

/-- A driver environment whose domain reports `VIR_DOMAIN_NOSTATE`. -/
def nostateEnv : DriverEnv :=
  { runningEnv with infoState := LvResult.ok VIR_DOMAIN_NOSTATE }

/-- A driver environment where opening the read-only connection fails. -/
def connFailEnv : DriverEnv :=
  { runningEnv with openRO := false }

/-- A driver environment where domain lookup raises `VIR_ERR_NO_DOMAIN`. -/
def noDomainEnv : DriverEnv :=
  { runningEnv with lookup := LvResult.err VIR_ERR_NO_DOMAIN }

/-- The filesystem state of an already-created node. -/
def definedState : FsState :=
  { dirExists := true, confExists := true, record := some sampleRecord }

/-- A racy filesystem state: the node directory exists but the config file
does not, so `exists()` is false yet `os.mkdir` will collide. -/
def raceState : FsState :=
  { dirExists := true, confExists := false, record := none }

lemma status_ok_state (h : Node) (env : DriverEnv) (st : Nat)
    (herr : h.error = none) (hro : env.openRO = true)
    (hlk : env.lookup = LvResult.ok ()) (hst : env.infoState = LvResult.ok st) :
    (Node.status h true env).1 = (state_code_map st).getD Status.ERROR := by
  simp only [Node.status, _dom_state, _get_domain, _get_conn, herr, hro, hlk, hst,
    Option.isSome_none, Bool.false_eq_true, if_false, Bool.not_true, if_true]
  cases state_code_map st <;> simp

lemma status_error_handle (h : Node) (fsE : Bool) (env : DriverEnv)
    (he : h.error.isSome = true) : Node.status h fsE env = (Status.ERROR, []) := by
  simp [Node.status, he]

lemma status_no_conf (h : Node) (env : DriverEnv) (he : h.error = none) :
    Node.status h false env = (Status.UNDEFINED, []) := by
  simp [Node.status, he]

lemma dom_state_conn_fail (env : DriverEnv) (name : String) (hro : env.openRO = false) :
    _dom_state env name
      = (Except.error (Exn.runtimeError "Failed to connect to QEMU."),
         [Call.openConn true]) := by
  simp [_dom_state, _get_domain, _get_conn, hro]

lemma dom_state_lookup_err (env : DriverEnv) (name : String) (c : Nat)
    (hro : env.openRO = true) (hlk : env.lookup = LvResult.err c) :
    _dom_state env name
      = (Except.error (Exn.libvirtError c),
         [Call.openConn true, Call.lookupByName name]) := by
  simp [_dom_state, _get_domain, _get_conn, hro, hlk]

lemma dom_state_lookup_exn (env : DriverEnv) (name : String)
    (hro : env.openRO = true) (hlk : env.lookup = LvResult.exn) :
    _dom_state env name
      = (Except.error Exn.otherError,
         [Call.openConn true, Call.lookupByName name]) := by
  simp [_dom_state, _get_domain, _get_conn, hro, hlk]

lemma dom_state_info_exn (env : DriverEnv) (name : String)
    (hro : env.openRO = true) (hlk : env.lookup = LvResult.ok ())
    (hst : env.infoState = LvResult.exn) :
    _dom_state env name
      = (Except.error Exn.otherError,
         [Call.openConn true, Call.lookupByName name, Call.domInfo name]) := by
  simp [_dom_state, _get_domain, _get_conn, hro, hlk, hst]

lemma dom_state_info_ok (env : DriverEnv) (name : String) (st : Nat)
    (hro : env.openRO = true) (hlk : env.lookup = LvResult.ok ())
    (hst : env.infoState = LvResult.ok st) :
    _dom_state env name
      = (Except.ok st,
         [Call.openConn true, Call.lookupByName name, Call.domInfo name]) := by
  simp [_dom_state, _get_domain, _get_conn, hro, hlk, hst]

lemma started_false_of_dom_error (env : DriverEnv) (name : String) (e : Exn)
    (tr : List Call) (hds : _dom_state env name = (Except.error e, tr)) :
    (started env name).1 = false := by
  simp [started, hds]

lemma status_dom_error (h : Node) (env : DriverEnv) (e : Exn) (tr : List Call)
    (herr : h.error = none) (hds : _dom_state env h.name = (Except.error e, tr)) :
    (Node.status h true env).1
      = match e with
        | Exn.libvirtError c => if c = VIR_ERR_NO_DOMAIN then Status.DOWN else Status.ERROR
        | _ => Status.ERROR := by
  cases e <;> simp [Node.status, herr, hds, apply_ite Prod.fst]

set_option maxRecDepth 40000 in
/-- C1: the claim says the descriptor contains one network-interface clause per
supplied network name, each with the e1000 model, and no supplied reference is
dropped. The code computes exactly those clauses into the `net_xml` entry of
its conf dict (as `net_xml_text` shows: `netA` and `e1000` each occur in it),
but the descriptor template of `_get_xml` has no placeholder for `net_xml`, so
the generated descriptor for one network `netA` contains exactly one interface
clause, it references the hard-coded network `default`, and the supplied name
`netA` and the `e1000` model occur nowhere in it: every supplied network
reference is silently dropped. -/
theorem C1_networks_dropped_from_descriptor :
    countOccs ("<interface".data) sampleXml.data = 1
  ∧ countOccs ("netA".data) sampleXml.data = 0
  ∧ countOccs ("e1000".data) sampleXml.data = 0
  ∧ countOccs ("<source network='default'/>".data) sampleXml.data = 1
  ∧ countOccs ("netA".data) (net_xml_text ["netA"]).data = 1
  ∧ countOccs ("e1000".data) (net_xml_text ["netA"]).data = 1 := by
  refine ⟨?_, ?_, ?_, ?_, ?_, ?_⟩ <;> decide

/-- C2 counterexample: for the defined hypervisor state `NoState` (code 0), the
status of a node whose record loaded successfully is `UNDEFINED`, which is none
of `UP`, `DOWN`, `ERROR` — refuting the claim that every defined state maps
into that three-value set and that no state maps to Undefined. -/
theorem C2_nostate_yields_undefined :
    (Node.status alphaNode true nostateEnv).1 = Status.UNDEFINED
  ∧ (Node.status alphaNode true nostateEnv).1 ≠ Status.UP
  ∧ (Node.status alphaNode true nostateEnv).1 ≠ Status.DOWN
  ∧ (Node.status alphaNode true nostateEnv).1 ≠ Status.ERROR := by
  refine ⟨?_, ?_, ?_, ?_⟩ <;> decide

/-- C2 as amended: for every defined hypervisor-state value the reconciliation
of a successfully loaded node is deterministic and total, with Running, Blocked
and Paused mapping to `UP`, ShuttingDown, ShutOff and Suspended mapping to
`DOWN`, Crashed mapping to `ERROR`, and NoState mapping to `UNDEFINED` (not to
one of the other three); no defined state falls through to a default. -/
theorem C2_state_mapping_total (h : Node) (env : DriverEnv) (st : Nat)
    (herr : h.error = none) (hro : env.openRO = true)
    (hlk : env.lookup = LvResult.ok ()) (hst : env.infoState = LvResult.ok st) :
    ((st = VIR_DOMAIN_RUNNING ∨ st = VIR_DOMAIN_BLOCKED ∨ st = VIR_DOMAIN_PAUSED) →
       (Node.status h true env).1 = Status.UP)
  ∧ ((st = VIR_DOMAIN_SHUTDOWN ∨ st = VIR_DOMAIN_SHUTOFF ∨ st = VIR_DOMAIN_PMSUSPENDED) →
       (Node.status h true env).1 = Status.DOWN)
  ∧ (st = VIR_DOMAIN_CRASHED → (Node.status h true env).1 = Status.ERROR)
  ∧ (st = VIR_DOMAIN_NOSTATE → (Node.status h true env).1 = Status.UNDEFINED) := by
  have hkey := status_ok_state h env st herr hro hlk hst
  refine ⟨?_, ?_, ?_, ?_⟩
  · rintro (rfl | rfl | rfl) <;> rw [hkey] <;> decide
  · rintro (rfl | rfl | rfl) <;> rw [hkey] <;> decide
  · rintro rfl; rw [hkey]; decide
  · rintro rfl; rw [hkey]; decide

/-- C2 witness: the amended mapping applied to the concrete running
environment: state `Running` yields `UP`. -/
theorem C2_state_mapping_total_witness :
    (Node.status alphaNode true runningEnv).1 = Status.UP :=
  (C2_state_mapping_total alphaNode runningEnv VIR_DOMAIN_RUNNING rfl rfl rfl rfl).1
    (Or.inl rfl)

/-- C3 counterexample: with the domain in state `Blocked` — an Up-equivalent
state, as the status query itself reports `UP` — the `started` check is
`false`, so `start` proceeds and performs a domain-creation (`createXML`)
call: `start` is not idempotent on the Up-equivalent states, only on
`Running`. -/
theorem C3_blocked_up_but_start_creates :
    (Node.status alphaNode true blockedEnv).1 = Status.UP
  ∧ (started blockedEnv alphaNode.name).1 = false
  ∧ (Node.start alphaNode true blockedEnv ["netA"]).1 = Except.ok ()
  ∧ countCreate (Node.start alphaNode true blockedEnv ["netA"]).2 = 1 := by
  refine ⟨by decide, by decide, rfl, by decide⟩

/-- C3 as amended: `start` is idempotent on a running domain. The `started`
check of the source compares the domain state to `VIR_DOMAIN_RUNNING` only, so
for every defined node whose domain is in state `Running`, `start` returns
success and performs no domain-creation call; since a creation-free call
leaves the hypervisor unchanged, a second `start` in a row returns the same
result, and the end state is `UP`. -/
theorem C3_start_idempotent_on_running (h : Node) (env : DriverEnv) (nets : List String)
    (herr : h.error = none) (hro : env.openRO = true)
    (hlk : env.lookup = LvResult.ok ())
    (hst : env.infoState = LvResult.ok VIR_DOMAIN_RUNNING) :
    (Node.start h true env nets).1 = Except.ok ()
  ∧ countCreate (Node.start h true env nets).2 = 0
  ∧ (Node.status h true env).1 = Status.UP := by
  have hds := dom_state_info_ok env h.name VIR_DOMAIN_RUNNING hro hlk hst
  have hstart : started env h.name
      = (true, [Call.openConn true, Call.lookupByName h.name, Call.domInfo h.name]) := by
    simp [started, hds]
  refine ⟨?_, ?_, ?_⟩
  · simp [Node.start, hstart]
  · simp [Node.start, hstart, countCreate]
  · rw [status_ok_state h env VIR_DOMAIN_RUNNING herr hro hlk hst]; decide

/-- C3 witness: the amended idempotence applied to the concrete node `alpha`
and the running environment. -/
theorem C3_start_idempotent_on_running_witness :
    (Node.start alphaNode true runningEnv ["netA"]).1 = Except.ok ()
  ∧ countCreate (Node.start alphaNode true runningEnv ["netA"]).2 = 0
  ∧ (Node.status alphaNode true runningEnv).1 = Status.UP :=
  C3_start_idempotent_on_running alphaNode runningEnv ["netA"] rfl rfl rfl rfl

/-- C4 counterexample: for the record with `ram_mb = 512` the descriptor's
memory field is `524288 = 512 * 1024`, which is not the megabyte value
converted to bytes (`512 * 1024 * 1024`): the claim's two parts contradict
each other, and the code implements the `* 1024` one. -/
theorem C4_memory_field_not_bytes :
    (xml_conf "alpha" sampleRecord ["netA"]).memory_bytes = 524288
  ∧ (xml_conf "alpha" sampleRecord ["netA"]).memory_bytes ≠ 512 * 1024 * 1024 := by
  refine ⟨rfl, by decide⟩

set_option maxRecDepth 40000 in
/-- C4 as amended: the descriptor builder multiplies the record's memory in
megabytes by 1024 (yielding kibibytes, the unit the hypervisor's memory
element defaults to, although the source names the value `memory_bytes`): for
every record the memory field is `ram_mb * 1024`, and the record with
`ram_mb = 512` produces a descriptor whose memory element is `524288`. -/
theorem C4_memory_is_mb_times_1024 (name : String) (r : NodeRecord) (nets : List String) :
    (xml_conf name r nets).memory_bytes = r.ram_mb * 1024
  ∧ countOccs ("<memory>524288</memory>".data) sampleXml.data = 1 := by
  exact ⟨rfl, by decide⟩

/-- C5: the status query never raises — `Node.status` is a total function
into the status values (the source catches `libvirt.libvirtError` and then
every `Exception`) — and every failure mode during the query collapses to
`ERROR`: a connection failure, a lookup failure other than domain-not-found
(an exception, or a libvirt error with a code other than `VIR_ERR_NO_DOMAIN`),
an unexpected exception while querying the domain state, and an unrecognized
state value (a `state_code_map` miss). Likewise the internal `started` check
collapses every failure of the compound query to a `false` answer. -/
theorem C5_status_never_raises (h : Node) (env : DriverEnv) :
    (env.openRO = false →
       (Node.status h true env).1 = Status.ERROR ∧ (started env h.name).1 = false)
  ∧ (env.lookup = LvResult.exn →
       (Node.status h true env).1 = Status.ERROR ∧ (started env h.name).1 = false)
  ∧ (∀ c, env.lookup = LvResult.err c → c ≠ VIR_ERR_NO_DOMAIN →
       (Node.status h true env).1 = Status.ERROR ∧ (started env h.name).1 = false)
  ∧ (env.openRO = true → env.lookup = LvResult.ok () → env.infoState = LvResult.exn →
       (Node.status h true env).1 = Status.ERROR ∧ (started env h.name).1 = false)
  ∧ (∀ st, env.openRO = true → env.lookup = LvResult.ok () →
       env.infoState = LvResult.ok st → state_code_map st = none →
       (Node.status h true env).1 = Status.ERROR)
  ∧ (∀ e tr, _dom_state env h.name = (Except.error e, tr) →
       (started env h.name).1 = false) := by
  have herror : ∀ (e : Exn) (tr : List Call),
      _dom_state env h.name = (Except.error e, tr) →
      (e matches Exn.libvirtError _) = false →
      (Node.status h true env).1 = Status.ERROR := by
    intro e tr hds hnotLv
    cases he : h.error with
    | some msg => simp [Node.status, he]
    | none => cases e <;> simp_all [status_dom_error h env _ _ he hds]
  refine ⟨?_, ?_, ?_, ?_, ?_, ?_⟩
  · intro hro
    have hds := dom_state_conn_fail env h.name hro
    exact ⟨herror _ _ hds rfl, started_false_of_dom_error env h.name _ _ hds⟩
  · intro hlk
    cases hro : env.openRO with
    | false =>
      have hds := dom_state_conn_fail env h.name hro
      exact ⟨herror _ _ hds rfl, started_false_of_dom_error env h.name _ _ hds⟩
    | true =>
      have hds := dom_state_lookup_exn env h.name hro hlk
      exact ⟨herror _ _ hds rfl, started_false_of_dom_error env h.name _ _ hds⟩
  · intro c hlk hne
    cases hro : env.openRO with
    | false =>
      have hds := dom_state_conn_fail env h.name hro
      exact ⟨herror _ _ hds rfl, started_false_of_dom_error env h.name _ _ hds⟩
    | true =>
      have hds := dom_state_lookup_err env h.name c hro hlk
      refine ⟨?_, started_false_of_dom_error env h.name _ _ hds⟩
      cases he : h.error with
      | some msg => simp [Node.status, he]
      | none => rw [status_dom_error h env _ _ he hds]; simp [hne]
  · intro hro hlk hst
    have hds := dom_state_info_exn env h.name hro hlk hst
    exact ⟨herror _ _ hds rfl, started_false_of_dom_error env h.name _ _ hds⟩
  · intro st hro hlk hst hmiss
    cases he : h.error with
    | some msg => simp [Node.status, he]
    | none => rw [status_ok_state h env st he hro hlk hst, hmiss]; rfl
  · intro e tr hds
    exact started_false_of_dom_error env h.name e tr hds

/-- C5 witness: the failure collapse applied to the concrete environment whose
read-only connection cannot be opened. -/
theorem C5_status_never_raises_witness :
    (Node.status alphaNode true connFailEnv).1 = Status.ERROR
  ∧ (started connFailEnv alphaNode.name).1 = false :=
  (C5_status_never_raises alphaNode connFailEnv).1 rfl

/-- C6: for a node whose record loaded successfully, a domain lookup that
raises the libvirt error `VIR_ERR_NO_DOMAIN` yields status `DOWN` — which is
neither `UNDEFINED` nor `ERROR` — while a libvirt error with any other code
during the domain query yields `ERROR`. -/
theorem C6_domain_not_found_is_down (h : Node) (env : DriverEnv)
    (herr : h.error = none) (hro : env.openRO = true) :
    (env.lookup = LvResult.err VIR_ERR_NO_DOMAIN →
       (Node.status h true env).1 = Status.DOWN
     ∧ (Node.status h true env).1 ≠ Status.UNDEFINED
     ∧ (Node.status h true env).1 ≠ Status.ERROR)
  ∧ (∀ c, env.lookup = LvResult.err c → c ≠ VIR_ERR_NO_DOMAIN →
       (Node.status h true env).1 = Status.ERROR) := by
  constructor
  · intro hlk
    have hds := dom_state_lookup_err env h.name VIR_ERR_NO_DOMAIN hro hlk
    have : (Node.status h true env).1 = Status.DOWN := by
      rw [status_dom_error h env _ _ herr hds]; simp
    refine ⟨this, ?_, ?_⟩ <;> rw [this] <;> decide
  · intro c hlk hne
    have hds := dom_state_lookup_err env h.name c hro hlk
    rw [status_dom_error h env _ _ herr hds]; simp [hne]

/-- C6 witness: the concrete loaded node with a driver that raises
`VIR_ERR_NO_DOMAIN` on lookup reports `DOWN`. -/
theorem C6_domain_not_found_is_down_witness :
    (Node.status alphaNode true noDomainEnv).1 = Status.DOWN
  ∧ (Node.status alphaNode true noDomainEnv).1 ≠ Status.UNDEFINED
  ∧ (Node.status alphaNode true noDomainEnv).1 ≠ Status.ERROR :=
  (C6_domain_not_found_is_down alphaNode noDomainEnv rfl rfl).1 rfl

/-- C7 counterexample: in the racy filesystem state where the node directory
already exists but the record file does not, `create` fails with the plain
`OSError` of `os.mkdir` — not with the AlreadyDefined `RuntimeError` — so a
directory-creation collision is not surfaced as AlreadyDefined. -/
theorem C7_mkdir_collision_is_oserror :
    (Node.create alphaNode raceState sampleRecord).1 = Except.error CreateErr.osError
  ∧ isAlreadyDefinedErr (Node.create alphaNode raceState sampleRecord).1 = false := by
  exact ⟨rfl, rfl⟩

/-- C7 as amended: for every name for which a record file already exists, a
second `create` fails with the AlreadyDefined `RuntimeError` naming the node
and returns the filesystem state unchanged — the original persisted record is
unmodified and no persistence side effect is performed; a directory-creation
collision, however, propagates as the uncaught `OSError` of `os.mkdir` rather
than being surfaced as AlreadyDefined. -/
theorem C7_create_already_defined (h : Node) (st : FsState) (r : NodeRecord)
    (hex : st.confExists = true) :
    Node.create h st r
      = (Except.error (CreateErr.runtimeError
          ("The node with name " ++ h.name ++ " is already defined.")), st)
  ∧ isAlreadyDefinedErr (Node.create h st r).1 = true := by
  constructor
  · simp [Node.create, hex]
  · simp [Node.create, hex, isAlreadyDefinedErr]

/-- C7 witness: the amended statement applied to the concrete already-created
state of node `alpha`. -/
theorem C7_create_already_defined_witness :
    Node.create alphaNode definedState sampleRecord
      = (Except.error (CreateErr.runtimeError
          ("The node with name " ++ alphaNode.name ++ " is already defined.")),
         definedState)
  ∧ isAlreadyDefinedErr (Node.create alphaNode definedState sampleRecord).1 = true :=
  C7_create_already_defined alphaNode definedState sampleRecord rfl

/-- C8: for every node handle whose record file does not exist, both `start`
and `stop` fail with the does-not-exist `RuntimeError` naming the node, and
their call trace is empty: no connection is opened and no domain operation is
issued. -/
theorem C8_undefined_node_no_driver_contact (h : Node) (env : DriverEnv)
    (nets : List String) :
    Node.start h false env nets
      = (Except.error (Exn.runtimeError
          ("A node with name " ++ h.name ++ " does not exist.")), [])
  ∧ Node.stop h false env
      = (Except.error (Exn.runtimeError
          ("A node with name " ++ h.name ++ " does not exist.")), []) := by
  exact ⟨rfl, rfl⟩

/-- C9: the corrupt-record error is sticky. Construction with an existing but
unloadable record file captures the failure once into the handle's `error`
field, and the status query of such a handle reports `ERROR` for every driver
environment and every later filesystem state, taking precedence over every
other outcome; `Node.status` takes no `LoadResult` — the embedding of the fact
that the file is never re-read on a query — and its call trace is empty. -/
theorem C9_sticky_load_error (name msg : String) (fsE : Bool) (env : DriverEnv) :
    (Node.init name true (LoadResult.failed msg)).error = some msg
  ∧ (Node.status (Node.init name true (LoadResult.failed msg)) fsE env)
      = (Status.ERROR, []) := by
  exact ⟨rfl, rfl⟩

/-- C10: the hypervisor is consulted only when the record exists and loaded
successfully: a handle whose sticky load error is set reports `ERROR`, and a
handle without sticky error whose record file does not exist reports
`UNDEFINED`, in both cases with an empty call trace — no connection opened,
no driver call issued. -/
theorem C10_no_driver_contact_without_record (h : Node) (fsE : Bool) (env : DriverEnv) :
    (h.error.isSome = true → Node.status h fsE env = (Status.ERROR, []))
  ∧ (h.error = none → Node.status h false env = (Status.UNDEFINED, [])) := by
  constructor
  · intro he; exact status_error_handle h fsE env he
  · intro he; exact status_no_conf h env he

/-- C10 witness: the broken handle reports `ERROR` and the loaded handle whose
file is gone reports `UNDEFINED`, both with no driver contact. -/
theorem C10_no_driver_contact_without_record_witness :
    Node.status brokenNode true runningEnv = (Status.ERROR, [])
  ∧ Node.status alphaNode false runningEnv = (Status.UNDEFINED, []) :=
  ⟨(C10_no_driver_contact_without_record brokenNode true runningEnv).1 rfl,
   (C10_no_driver_contact_without_record alphaNode true runningEnv).2 rfl⟩

end OsSandbox
